import Mathlib

/-!
Shallow embedding of the rule-evaluation and aggregation engine of the
Sales-AI-Agent repository (src/agent_engine.py), together with theorems
settling the specification claims.

Modelling conventions:
* Numeric row fields (pandas floats) are modelled as rationals `ℚ`;
  the thresholds 0.70 and 0.85 are the exact decimals 70/100 and 85/100.
* Dates (pandas datetimes) are modelled as ordinal day numbers `Nat`;
  `formatDate` stands for `strftime` (an injective rendering).
* The wall clock (`datetime.now()` in `_empty_summary`) is passed
  explicitly as a `Now` value.
* A loaded dataset is `Option (List SalesRow)`: `none` models a missing
  data file (`load_data` returns `None`), `some rows` a loaded table.
  Field aliasing and per-field defaulting (`row.get(..., default)`)
  happen at ingestion, so a `SalesRow` always carries every field.
-/

attribute [local semireducible] Rat.mul Rat.inv Rat.add Rat.sub

namespace SalesAgent

/-- Severity of a single rule violation. -/
inductive Severity where
  | WARNING
  | CRITICAL
  deriving DecidableEq, Repr

/-- Per-record or portfolio-level status. -/
inductive Status where
  | OK
  | WARNING
  | CRITICAL
  deriving DecidableEq, Repr

/-- A single rule breach: rule code, severity and human-readable message. -/
structure Violation where
  rule : String
  severity : Severity
  message : String
  deriving DecidableEq, Repr

/-- One input row of the daily sales table (a pandas row in the source). -/
structure SalesRow where
  date : Nat
  region : String
  product : String
  total_sales : ℚ
  target_daily : ℚ
  delta_vs_target : ℚ
  delta_vs_yesterday : ℚ
  avg_7d_sales : ℚ
  day_name : String
  is_weekend : Bool
  deriving DecidableEq, Repr

/-- Pad a digit string with leading zeros up to length `k`. -/
def padZeros (k : Nat) (s : String) : String :=
  if s.length ≥ k then s else String.mk (List.replicate (k - s.length) '0') ++ s

/-- Split a list of characters into chunks of three (used for digit grouping). -/
def chunk3 : List Char → List (List Char)
  | [] => []
  | a :: b :: c :: rest => [a, b, c] :: chunk3 rest
  | l => [l]

/-- Insert thousands separators into a digit string, as Python comma formatting does. -/
def commaGroup (s : String) : String :=
  String.mk (List.intercalate [','] ((chunk3 s.data.reverse).reverse.map List.reverse))

/-- Floor of a rational as an integer (numerator fdiv denominator). -/
def ratFloor (q : ℚ) : ℤ := Int.fdiv q.num q.den

/-- Models Python fixed-point string formatting of a float with `prec`
decimal places, an optional forced plus sign, and optional comma digit
grouping (the format specs .1f, +.1f and comma .0f of the source). -/
def fmtFixed (prec : Nat) (forceSign : Bool) (group : Bool) (q : ℚ) : String :=
  let scaled : ℤ := ratFloor (q * (10 : ℚ) ^ prec + 1 / 2)
  let m := scaled.natAbs
  let ipart := m / 10 ^ prec
  let fpart := m % 10 ^ prec
  let ipStr := if group then commaGroup (toString ipart) else toString ipart
  let sign := if scaled < 0 then "-" else if forceSign then "+" else ""
  if prec = 0 then sign ++ ipStr
  else sign ++ ipStr ++ "." ++ padZeros prec (toString fpart)

/-- Models `strftime` on an ordinal date: an injective rendering to a string. -/
def formatDate (d : Nat) : String := toString d

/-- R1 target achievement: delta_vs_target < -10 is CRITICAL R1.3, else
delta_vs_target < 0 is WARNING R1.2 (agent_engine.py lines 52-65). -/
def r1Violations (row : SalesRow) : List Violation :=
  if row.delta_vs_target < -10 then
    [⟨"R1.3", Severity.CRITICAL,
      "Missed target by " ++ fmtFixed 1 false false |row.delta_vs_target| ++ "%"⟩]
  else if row.delta_vs_target < 0 then
    [⟨"R1.2", Severity.WARNING,
      "Below target by " ++ fmtFixed 1 false false |row.delta_vs_target| ++ "%"⟩]
  else []

/-- R2 day-over-day: delta_vs_yesterday < -15 is CRITICAL R2.3, else
delta_vs_yesterday < -5 is WARNING R2.2 (agent_engine.py lines 67-80). -/
def r2Violations (row : SalesRow) : List Violation :=
  if row.delta_vs_yesterday < -15 then
    [⟨"R2.3", Severity.CRITICAL,
      "Dropped " ++ fmtFixed 1 false false |row.delta_vs_yesterday| ++ "% vs yesterday"⟩]
  else if row.delta_vs_yesterday < -5 then
    [⟨"R2.2", Severity.WARNING,
      "Down " ++ fmtFixed 1 false false |row.delta_vs_yesterday| ++ "% vs yesterday"⟩]
  else []

/-- R3 trend anomaly, evaluated only when avg_7d_sales > 0: the trend
quotient total_sales / avg_7d_sales below 0.70 is CRITICAL R3.3, else
below 0.85 is WARNING R3.2 (agent_engine.py lines 82-99).  The source
defaults a missing avg_7d_sales field to total_sales; ingestion into
`SalesRow` performs that defaulting, so the field is always present here. -/
def r3Violations (row : SalesRow) : List Violation :=
  if row.avg_7d_sales > 0 then
    let tr := row.total_sales / row.avg_7d_sales
    if tr < 70 / 100 then
      [⟨"R3.3", Severity.CRITICAL,
        "Sales " ++ fmtFixed 1 false false ((1 - tr) * 100) ++ "% below 7-day average"⟩]
    else if tr < 85 / 100 then
      [⟨"R3.2", Severity.WARNING,
        "Sales " ++ fmtFixed 1 false false ((1 - tr) * 100) ++ "% below 7-day average"⟩]
    else []
  else []

/-- The violations list accumulated by evaluate_rules in rule order R1, R2, R3. -/
def ruleViolations (row : SalesRow) : List Violation :=
  r1Violations row ++ r2Violations row ++ r3Violations row

/-- Status rollup over a violations list: CRITICAL if any violation is
CRITICAL, else WARNING if any is WARNING, else OK (agent_engine.py lines 101-107). -/
def rollup (vs : List Violation) : Status :=
  if vs.any (fun v => decide (v.severity = Severity.CRITICAL)) then Status.CRITICAL
  else if vs.any (fun v => decide (v.severity = Severity.WARNING)) then Status.WARNING
  else Status.OK

/-- Result of evaluate_rules: the returned dict with keys status,
violations and adjustment_note. -/
structure Evaluation where
  status : Status
  violations : List Violation
  adjustment_note : Option String
  deriving DecidableEq, Repr

/-- Apply rules R1-R3 to one row, roll the violations up into a status,
then apply the R4 weekend adjustment: on a weekend a CRITICAL status is
downgraded to WARNING with a fixed note, leaving the violations list
unchanged (agent_engine.py lines 40-120). -/
def evaluate_rules (row : SalesRow) : Evaluation :=
  let violations := ruleViolations row
  let final_status := rollup violations
  if row.is_weekend ∧ final_status = Status.CRITICAL then
    ⟨Status.WARNING, violations, some "Downgraded from CRITICAL due to weekend"⟩
  else
    ⟨final_status, violations, none⟩

/-- One row of the per-record result table built by process_daily_data
(agent_engine.py lines 134-147): the raw fields plus the evaluation
outputs.  The source result dict carries exactly these keys (note it does
not carry avg_7d_sales). -/
structure EvaluatedRecord where
  date : Nat
  region : String
  product : String
  total_sales : ℚ
  target_daily : ℚ
  delta_vs_target : ℚ
  delta_vs_yesterday : ℚ
  day_name : String
  is_weekend : Bool
  status : Status
  violations : List Violation
  adjustment_note : Option String
  deriving DecidableEq, Repr

/-- The maximum date present in the dataset (pandas df.date.max, computed
by load_data). -/
def latestDate (rows : List SalesRow) : Nat :=
  (rows.map SalesRow.date).foldr max 0

/-- Rows of the most recent date (get_latest_data, agent_engine.py lines
31-38): the empty table when the dataset is absent or empty, otherwise
the rows whose date equals the maximum date. -/
def get_latest_data : Option (List SalesRow) → List SalesRow
  | none => []
  | some rows =>
    if rows.length > 0 then rows.filter (fun r => decide (r.date = latestDate rows)) else []

/-- Assemble one result-table row from a sales row and its evaluation. -/
def toResult (row : SalesRow) : EvaluatedRecord :=
  let evaluation := evaluate_rules row
  { date := row.date, region := row.region, product := row.product,
    total_sales := row.total_sales, target_daily := row.target_daily,
    delta_vs_target := row.delta_vs_target, delta_vs_yesterday := row.delta_vs_yesterday,
    day_name := row.day_name, is_weekend := row.is_weekend,
    status := evaluation.status, violations := evaluation.violations,
    adjustment_note := evaluation.adjustment_note }

/-- Evaluate every latest-day row (process_daily_data, agent_engine.py
lines 122-150); an absent or empty dataset yields the empty table. -/
def process_daily_data (df : Option (List SalesRow)) : List EvaluatedRecord :=
  (get_latest_data df).map toResult

/-- The wall clock at the moment of a run, as used by datetime.now in
_empty_summary: the current date and its weekday name. -/
structure Now where
  date : Nat
  day_name : String
  deriving DecidableEq, Repr

/-- The summary dict built by aggregate_findings. -/
structure PortfolioSummary where
  date : Nat
  day_name : String
  is_weekend : Bool
  total_rows : Nat
  critical_count : Nat
  warning_count : Nat
  ok_count : Nat
  total_sales : ℚ
  total_target : ℚ
  portfolio_achievement : ℚ
  delta_vs_yesterday : ℚ
  overall_status : Status
  critical_issues : List EvaluatedRecord
  warning_issues : List EvaluatedRecord
  top_performers : List EvaluatedRecord
  flagged_items : List EvaluatedRecord
  deriving DecidableEq, Repr

/-- The empty summary structure (_empty_summary, agent_engine.py lines
217-236), with the current wall-clock date and weekday as metadata. -/
def empty_summary (now : Now) : PortfolioSummary :=
  { date := now.date, day_name := now.day_name, is_weekend := false,
    total_rows := 0, critical_count := 0, warning_count := 0, ok_count := 0,
    total_sales := 0, total_target := 0, portfolio_achievement := 0,
    delta_vs_yesterday := 0, overall_status := Status.OK,
    critical_issues := [], warning_issues := [], top_performers := [],
    flagged_items := [] }

/-- Number of records of the result table having a given status. -/
def statusCount (results : List EvaluatedRecord) (s : Status) : Nat :=
  (results.filter (fun r => decide (r.status = s))).length

/-- Ascending comparison by delta_vs_target (sort_values default order). -/
def byDeltaAsc (a b : EvaluatedRecord) : Prop :=
  a.delta_vs_target ≤ b.delta_vs_target

/-- Descending comparison by delta_vs_target (sort_values ascending=False). -/
def byDeltaDesc (a b : EvaluatedRecord) : Prop :=
  b.delta_vs_target ≤ a.delta_vs_target

instance : DecidableRel byDeltaAsc := fun a b =>
  inferInstanceAs (Decidable (a.delta_vs_target ≤ b.delta_vs_target))

instance : DecidableRel byDeltaDesc := fun a b =>
  inferInstanceAs (Decidable (b.delta_vs_target ≤ a.delta_vs_target))

instance : IsTotal EvaluatedRecord byDeltaAsc :=
  ⟨fun a b => le_total a.delta_vs_target b.delta_vs_target⟩

instance : IsTrans EvaluatedRecord byDeltaAsc :=
  ⟨fun _ _ _ hab hbc => le_trans hab hbc⟩

instance : IsTotal EvaluatedRecord byDeltaDesc :=
  ⟨fun a b => le_total b.delta_vs_target a.delta_vs_target⟩

instance : IsTrans EvaluatedRecord byDeltaDesc :=
  ⟨fun _ _ _ hab hbc => le_trans hbc hab⟩

/-- Summarize the result table for one day (aggregate_findings,
agent_engine.py lines 152-215): counts, sums, achievement, overall
status, and the four derived lists.  An empty table yields the empty
summary. -/
def aggregate_findings (results : List EvaluatedRecord) (now : Now) : PortfolioSummary :=
  match results with
  | [] => empty_summary now
  | first :: _ =>
    let total_sales := (results.map EvaluatedRecord.total_sales).sum
    let total_target := (results.map EvaluatedRecord.target_daily).sum
    let critical_count := statusCount results Status.CRITICAL
    let warning_count := statusCount results Status.WARNING
    { date := first.date, day_name := first.day_name, is_weekend := first.is_weekend,
      total_rows := results.length,
      critical_count := critical_count,
      warning_count := warning_count,
      ok_count := statusCount results Status.OK,
      total_sales := total_sales,
      total_target := total_target,
      portfolio_achievement :=
        if total_target > 0 then total_sales / total_target * 100 else 0,
      delta_vs_yesterday :=
        (results.map EvaluatedRecord.delta_vs_yesterday).sum / (results.length : ℚ),
      overall_status :=
        if critical_count > 0 then Status.CRITICAL
        else if warning_count > 0 then Status.WARNING
        else Status.OK,
      critical_issues :=
        (List.insertionSort byDeltaAsc
          (results.filter (fun r => decide (r.status = Status.CRITICAL)))).take 5,
      warning_issues :=
        (List.insertionSort byDeltaAsc
          (results.filter (fun r => decide (r.status = Status.WARNING)))).take 5,
      top_performers :=
        (List.insertionSort byDeltaDesc
          (results.filter (fun r => decide (r.status = Status.OK)))).take 3,
      flagged_items :=
        results.filter
          (fun r => decide (r.status = Status.CRITICAL ∨ r.status = Status.WARNING)) }

/-- Indonesian translation of English weekday names (day_translation dict,
agent_engine.py lines 252-261); an unknown name falls back to itself. -/
def day_translation (d : String) : String :=
  if d = "Monday" then "Senin"
  else if d = "Tuesday" then "Selasa"
  else if d = "Wednesday" then "Rabu"
  else if d = "Thursday" then "Kamis"
  else if d = "Friday" then "Jumat"
  else if d = "Saturday" then "Sabtu"
  else if d = "Sunday" then "Minggu"
  else d

/-- The status string rendered in the report. -/
def statusText : Status → String
  | Status.OK => "OK"
  | Status.WARNING => "WARNING"
  | Status.CRITICAL => "CRITICAL"

/-- The status icon of the final report line. -/
def statusIcon : Status → String
  | Status.OK => "✅"
  | Status.WARNING => "⚠️"
  | Status.CRITICAL => "🚨"

/-- Executive-summary block of the report, selected on the overall status
(agent_engine.py lines 275-295). -/
def execSummary (s : PortfolioSummary) : String :=
  let achievement := fmtFixed 1 false false s.portfolio_achievement
  let trendWord := if s.delta_vs_yesterday < 0 then "menurun" else "meningkat"
  let dy := fmtFixed 1 false false |s.delta_vs_yesterday|
  if s.overall_status = Status.CRITICAL then
    "- Portofolio berkinerja jauh di bawah target: **" ++ achievement ++
    "% dari target tercapai**\n- " ++ toString s.critical_count ++
    " masalah kritis memerlukan perhatian segera\n- Penjualan " ++ trendWord ++
    " " ++ dy ++ "% vs kemarin\n" ++
    "- Intervensi mendesak diperlukan untuk mencegah penurunan lebih lanjut\n" ++
    "- Manajer regional harus menyelidiki akar masalah hari ini\n"
  else if s.overall_status = Status.WARNING then
    "- Portofolio mencapai **" ++ achievement ++
    "% dari target** — di bawah ekspektasi\n- " ++ toString s.warning_count ++
    " sinyal peringatan terdeteksi, " ++ toString s.critical_count ++
    " masalah kritis\n- Penjualan " ++ trendWord ++ " " ++ dy ++ "% vs kemarin\n" ++
    "- Pemantauan ketat diperlukan; siapkan rencana kontingensi\n" ++
    "- Beberapa titik terang teridentifikasi pada performa terbaik\n"
  else
    "- Portofolio berkinerja baik: **" ++ achievement ++
    "% dari target tercapai**\n" ++
    "- Semua wilayah dan produk dalam rentang yang dapat diterima\n- Penjualan " ++
    trendWord ++ " " ++ dy ++ "% vs kemarin\n" ++
    "- Tidak ada kekhawatiran mendesak; pertahankan momentum saat ini\n" ++
    "- Lanjutkan pemantauan untuk tren yang muncul\n"

/-- Key-metrics block of the report (agent_engine.py lines 297-303). -/
def metricsBlock (s : PortfolioSummary) : String :=
  "\n📊 **Metrik Utama**\n- **Total Penjualan**: Rp " ++
  fmtFixed 0 false true s.total_sales ++
  "\n- **Target**: Rp " ++ fmtFixed 0 false true s.total_target ++
  "\n- **Selisih vs Target**: " ++
  fmtFixed 1 true false (s.portfolio_achievement - 100) ++
  "%\n- **Perubahan vs Kemarin**: " ++
  fmtFixed 1 true false s.delta_vs_yesterday ++ "%\n"

/-- One bullet of the alerts section for a critical issue (agent_engine.py
lines 308-316); the text is built from the record's region, product,
sales and delta fields. -/
def criticalLine (issue : EvaluatedRecord) : String :=
  "- 🚨 **KRITIS**: " ++ issue.region ++ " - " ++ issue.product ++ ": Rp " ++
  fmtFixed 0 false true issue.total_sales ++ " (" ++
  fmtFixed 1 true false issue.delta_vs_target ++ "% vs target, " ++
  fmtFixed 1 true false issue.delta_vs_yesterday ++ "% vs kemarin)\n"

/-- One bullet of the alerts section for a warning issue (agent_engine.py
lines 318-324). -/
def warningLine (issue : EvaluatedRecord) : String :=
  "- ⚠️ **PERINGATAN**: " ++ issue.region ++ " - " ++ issue.product ++ " (" ++
  fmtFixed 1 true false issue.delta_vs_target ++ "% vs target)\n"

/-- The bullets of the alerts section (agent_engine.py lines 306-327):
the first three critical issues, then the first two warning issues, then
a fallback bullet when both lists are empty. -/
def alertLines (s : PortfolioSummary) : List String :=
  (s.critical_issues.take 3).map criticalLine ++
  (s.warning_issues.take 2).map warningLine ++
  (if s.critical_issues = [] ∧ s.warning_issues = [] then
    ["- ✅ Tidak ada masalah kritis atau peringatan terdeteksi\n"]
  else [])

/-- Analysis block keyed on the overall status (agent_engine.py lines 330-343). -/
def analysisBlock : Status → String
  | Status.CRITICAL =>
    "- Penurunan tajam menunjukkan masalah operasional (inventori, staf, sistem) atau faktor eksternal (aktivitas kompetitor, cuaca)\n" ++
    "- Beberapa masalah kritis mengindikasikan masalah sistemik yang memerlukan perhatian pimpinan\n" ++
    "- Analisis pola menunjukkan ini bukan fluktuasi normal\n"
  | Status.WARNING =>
    "- Penurunan kinerja mungkin sementara, tetapi tren memerlukan pemantauan\n" ++
    "- Beberapa wilayah/produk berkinerja buruk sementara yang lain mengkompensasi\n" ++
    "- Pola akhir pekan/hari kerja mungkin mempengaruhi hasil\n"
  | Status.OK =>
    "- Eksekusi kuat di semua wilayah dan lini produk\n" ++
    "- Momentum penjualan positif dan berkelanjutan\n" ++
    "- Strategi saat ini efektif\n"

/-- Recommended-actions block keyed on the overall status (agent_engine.py
lines 346-365). -/
def recommendationBlock : Status → String
  | Status.CRITICAL =>
    "1. **MENDESAK**: Manajer regional hubungi lokasi yang berkinerja buruk segera\n" ++
    "2. **MENDESAK**: Verifikasi inventori, staf, dan fungsi sistem\n" ++
    "3. Eskalasi ke VP Penjualan jika masalah tidak terselesaikan pada akhir hari\n" ++
    "4. Siapkan rencana tindakan korektif untuk besok\n" ++
    "5. Periksa ulang penjualan jam 3 sore untuk menilai efektivitas intervensi\n"
  | Status.WARNING =>
    "1. Tinjau kombinasi wilayah-produk yang ditandai untuk masalah yang diketahui\n" ++
    "2. Periksa promosi kompetitor atau perubahan pasar\n" ++
    "3. Siapkan kontingensi jika tren berlanjut besok\n" ++
    "4. Pantau dengan ketat sepanjang hari\n" ++
    "5. Dokumentasikan temuan untuk analisis pola\n"
  | Status.OK =>
    "1. Lanjutkan strategi dan eksekusi penjualan saat ini\n" ++
    "2. Bagikan praktik terbaik dari performa terbaik\n" ++
    "3. Pertahankan tingkat inventori dan staf\n" ++
    "4. Pantau untuk masalah yang muncul\n" ++
    "5. Persiapkan untuk periode promosi mendatang\n"

/-- Report text accumulated before the alerts section (agent_engine.py
lines 270-306): title, executive summary and key metrics. -/
def reportHeader (s : PortfolioSummary) : String :=
  "🧾 LAPORAN PENJUALAN HARIAN — " ++ day_translation s.day_name ++ ", " ++
  formatDate s.date ++ "\n\n📌 **Ringkasan Eksekutif**\n" ++
  execSummary s ++
  metricsBlock s ++
  "\n⚠️ **Peringatan & Risiko**\n"

/-- Report text appended after the alerts section (agent_engine.py lines
329-367): analysis, recommendations and the final status line. -/
def reportFooter (s : PortfolioSummary) : String :=
  "\n🧠 **Analisis AI (Mengapa ini terjadi)**\n" ++ analysisBlock s.overall_status ++
  "\n🎯 **Tindakan yang Direkomendasikan (Hari Ini)**\n" ++
  recommendationBlock s.overall_status ++
  "\n**Status**: " ++ statusIcon s.overall_status ++ " " ++
  statusText s.overall_status ++ "\n"

/-- Template-based report generation (generate_ai_insight, agent_engine.py
lines 238-369): a pure function of the summary, selecting fixed text
blocks on the overall status and interpolating summary fields; the source
builds the same string by successive appends. -/
def generate_ai_insight (s : PortfolioSummary) : String :=
  reportHeader s ++ String.join (alertLines s) ++ reportFooter s

/-- Result of a full run: the summary together with the ai_insight text
added to it by run_analysis. -/
structure AnalysisResult where
  summary : PortfolioSummary
  ai_insight : String
  deriving DecidableEq, Repr

/-- The complete pipeline (run_analysis, agent_engine.py lines 371-385):
process the loaded snapshot, aggregate, and compose the report. -/
def run_analysis (df : Option (List SalesRow)) (now : Now) : AnalysisResult :=
  let df_results := process_daily_data df
  let summary := aggregate_findings df_results now
  ⟨summary, generate_ai_insight summary⟩

/-- Severity of a violation viewed as a status. -/
def Severity.toStatus : Severity → Status
  | Severity.WARNING => Status.WARNING
  | Severity.CRITICAL => Status.CRITICAL

/-- Maximum of two statuses in the severity order OK < WARNING < CRITICAL. -/
def statusMax (a b : Status) : Status :=
  match a, b with
  | Status.CRITICAL, _ => Status.CRITICAL
  | _, Status.CRITICAL => Status.CRITICAL
  | Status.WARNING, _ => Status.WARNING
  | _, Status.WARNING => Status.WARNING
  | Status.OK, Status.OK => Status.OK

/-- Maximum severity over a violation list, OK when the list is empty. -/
def maxSeverity (vs : List Violation) : Status :=
  vs.foldr (fun v acc => statusMax v.severity.toStatus acc) Status.OK

theorem any_perm {α : Type} {l l' : List α} (h : l.Perm l') (f : α → Bool) :
    l.any f = l'.any f := by
  rw [Bool.eq_iff_iff]
  simp only [List.any_eq_true]
  constructor <;> rintro ⟨x, hx, hfx⟩
  · exact ⟨x, h.mem_iff.mp hx, hfx⟩
  · exact ⟨x, h.mem_iff.mpr hx, hfx⟩

theorem rollup_cons (v : Violation) (vs : List Violation) :
    rollup (v :: vs) = statusMax v.severity.toStatus (rollup vs) := by
  unfold rollup
  cases hv : v.severity <;>
    simp only [List.any_cons, hv, decide_eq_true_eq] <;>
    by_cases hc : vs.any (fun v => decide (v.severity = Severity.CRITICAL)) = true <;>
    by_cases hw : vs.any (fun v => decide (v.severity = Severity.WARNING)) = true <;>
    simp [hc, hw, statusMax, Severity.toStatus]

theorem rollup_eq_maxSeverity (vs : List Violation) : rollup vs = maxSeverity vs := by
  induction vs with
  | nil => rfl
  | cons v vs ih => rw [rollup_cons, ih]; rfl

theorem rollup_perm {l l' : List Violation} (h : l.Perm l') : rollup l = rollup l' := by
  unfold rollup
  rw [any_perm h, any_perm h]

theorem evaluate_rules_violations (row : SalesRow) :
    (evaluate_rules row).violations = ruleViolations row := by
  simp only [evaluate_rules]
  split <;> rfl

/-- C1: on a weekend row whose pre-adjustment rollup status is CRITICAL,
evaluate_rules returns status WARNING with a non-empty adjustment note and
the unchanged R1-R3 violations list; on every other row the status equals
the rollup status and the adjustment note is absent. -/
theorem claim_C1 (row : SalesRow) :
    (row.is_weekend = true → rollup (ruleViolations row) = Status.CRITICAL →
      (evaluate_rules row).status = Status.WARNING ∧
      (∃ note, (evaluate_rules row).adjustment_note = some note ∧ note ≠ "") ∧
      (evaluate_rules row).violations = ruleViolations row) ∧
    (¬ (row.is_weekend = true ∧ rollup (ruleViolations row) = Status.CRITICAL) →
      (evaluate_rules row).status = rollup (ruleViolations row) ∧
      (evaluate_rules row).adjustment_note = none ∧
      (evaluate_rules row).violations = ruleViolations row) := by
  simp only [evaluate_rules]
  by_cases h : row.is_weekend = true ∧ rollup (ruleViolations row) = Status.CRITICAL
  · simp [h]
  · simp [h]
    intro hw hc
    exact absurd ⟨hw, hc⟩ h

/-- Witness row for C1: the spec worked example with is_weekend true
(delta_vs_target = -20 and trend quotient 0.8), whose pre-adjustment
rollup status is CRITICAL. -/
def c1Row : SalesRow :=
  ⟨1, "North", "Widget", 8000, 10000, -20, -2, 10000, "Saturday", true⟩

theorem claim_C1_witness :
    (evaluate_rules c1Row).status = Status.WARNING ∧
    (∃ note, (evaluate_rules c1Row).adjustment_note = some note ∧ note ≠ "") ∧
    (evaluate_rules c1Row).violations = ruleViolations c1Row :=
  (claim_C1 c1Row).1 (by decide) (by decide)

/-- C2: the pre-adjustment rollup status of every row is one of OK,
WARNING, CRITICAL, equals the maximum severity over the R1-R3 violations,
and is invariant under any permutation of the violation list (so it does
not depend on the order in which the rules are evaluated). -/
theorem claim_C2 (row : SalesRow) :
    (rollup (ruleViolations row) = Status.OK ∨
      rollup (ruleViolations row) = Status.WARNING ∨
      rollup (ruleViolations row) = Status.CRITICAL) ∧
    rollup (ruleViolations row) = maxSeverity (ruleViolations row) ∧
    (∀ l : List Violation, l.Perm (ruleViolations row) →
      rollup l = rollup (ruleViolations row)) := by
  refine ⟨?_, rollup_eq_maxSeverity _, fun l hl => rollup_perm hl⟩
  cases rollup (ruleViolations row) <;> simp

theorem claim_C2_witness :
    rollup (ruleViolations c1Row) = maxSeverity (ruleViolations c1Row) ∧
    rollup [⟨"R3.2", Severity.WARNING, "Sales 20.0% below 7-day average"⟩,
      ⟨"R1.3", Severity.CRITICAL, "Missed target by 20.0%"⟩] =
      rollup (ruleViolations c1Row) := by
  refine ⟨(claim_C2 c1Row).2.1, (claim_C2 c1Row).2.2 _ ?_⟩
  have h : ruleViolations c1Row =
      [⟨"R1.3", Severity.CRITICAL, "Missed target by 20.0%"⟩,
       ⟨"R3.2", Severity.WARNING, "Sales 20.0% below 7-day average"⟩] := by decide
  rw [h]
  exact List.Perm.swap _ _ _

end SalesAgent
namespace SalesAgent

theorem claim_C3 :
    (∀ row : SalesRow, row.delta_vs_target = -10 →
      (r1Violations row).map (fun v => (v.rule, v.severity)) =
        [("R1.2", Severity.WARNING)]) ∧
    (∀ row : SalesRow, row.delta_vs_yesterday = -15 →
      (r2Violations row).map (fun v => (v.rule, v.severity)) =
        [("R2.2", Severity.WARNING)]) ∧
    (∀ row : SalesRow, row.avg_7d_sales > 0 →
      row.total_sales / row.avg_7d_sales = 85 / 100 →
      r3Violations row = []) ∧
    (∀ row : SalesRow, row.avg_7d_sales > 0 →
      row.total_sales / row.avg_7d_sales = 70 / 100 →
      (r3Violations row).map (fun v => (v.rule, v.severity)) =
        [("R3.2", Severity.WARNING)]) := by
  refine ⟨?_, ?_, ?_, ?_⟩
  · intro row h
    simp [r1Violations, h]
    try norm_num
  · intro row h
    simp [r2Violations, h]
    try norm_num
  · intro row hpos hq
    simp [r3Violations, hpos, hq]
    try norm_num
  · intro row hpos hq
    simp [r3Violations, hpos, hq]
    try norm_num

end SalesAgent
namespace SalesAgent

/-- Boundary witness rows for C3: delta_vs_target exactly -10,
delta_vs_yesterday exactly -15, and trend quotients exactly 0.85 and 0.70. -/
def c3RowA : SalesRow := ⟨1, "A", "P", 100, 100, -10, 0, 100, "Monday", false⟩

def c3RowB : SalesRow := ⟨1, "A", "P", 100, 100, 0, -15, 100, "Monday", false⟩

def c3RowC : SalesRow := ⟨1, "A", "P", 85, 100, 0, 0, 100, "Monday", false⟩

def c3RowD : SalesRow := ⟨1, "A", "P", 70, 100, 0, 0, 100, "Monday", false⟩

theorem claim_C3_witness :
    (r1Violations c3RowA).map (fun v => (v.rule, v.severity)) =
      [("R1.2", Severity.WARNING)] ∧
    (r2Violations c3RowB).map (fun v => (v.rule, v.severity)) =
      [("R2.2", Severity.WARNING)] ∧
    r3Violations c3RowC = [] ∧
    (r3Violations c3RowD).map (fun v => (v.rule, v.severity)) =
      [("R3.2", Severity.WARNING)] :=
  ⟨claim_C3.1 c3RowA (by decide), claim_C3.2.1 c3RowB (by decide),
    claim_C3.2.2.1 c3RowC (by decide) (by decide),
    claim_C3.2.2.2 c3RowD (by decide) (by decide)⟩

theorem r1_cases (row : SalesRow) :
    r1Violations row = [] ∨
    (∃ m, r1Violations row = [⟨"R1.3", Severity.CRITICAL, m⟩]) ∨
    (∃ m, r1Violations row = [⟨"R1.2", Severity.WARNING, m⟩]) := by
  unfold r1Violations
  split
  · exact Or.inr (Or.inl ⟨_, rfl⟩)
  · split
    · exact Or.inr (Or.inr ⟨_, rfl⟩)
    · exact Or.inl rfl

theorem r2_cases (row : SalesRow) :
    r2Violations row = [] ∨
    (∃ m, r2Violations row = [⟨"R2.3", Severity.CRITICAL, m⟩]) ∨
    (∃ m, r2Violations row = [⟨"R2.2", Severity.WARNING, m⟩]) := by
  unfold r2Violations
  split
  · exact Or.inr (Or.inl ⟨_, rfl⟩)
  · split
    · exact Or.inr (Or.inr ⟨_, rfl⟩)
    · exact Or.inl rfl

theorem r3_cases (row : SalesRow) :
    r3Violations row = [] ∨
    (∃ m, r3Violations row = [⟨"R3.3", Severity.CRITICAL, m⟩]) ∨
    (∃ m, r3Violations row = [⟨"R3.2", Severity.WARNING, m⟩]) := by
  simp only [r3Violations]
  split
  · split
    · exact Or.inr (Or.inl ⟨_, rfl⟩)
    · split
      · exact Or.inr (Or.inr ⟨_, rfl⟩)
      · exact Or.inl rfl
  · exact Or.inl rfl

/-- C10: every row yields at most three violations, with at most one per
rule family R1, R2, R3. -/
theorem claim_C10 (row : SalesRow) :
    (evaluate_rules row).violations.length ≤ 3 ∧
    (evaluate_rules row).violations.countP
      (fun v => decide (v.rule = "R1.2" ∨ v.rule = "R1.3")) ≤ 1 ∧
    (evaluate_rules row).violations.countP
      (fun v => decide (v.rule = "R2.2" ∨ v.rule = "R2.3")) ≤ 1 ∧
    (evaluate_rules row).violations.countP
      (fun v => decide (v.rule = "R3.2" ∨ v.rule = "R3.3")) ≤ 1 := by
  rw [evaluate_rules_violations]
  unfold ruleViolations
  rcases r1_cases row with h1 | ⟨m1, h1⟩ | ⟨m1, h1⟩ <;>
  rcases r2_cases row with h2 | ⟨m2, h2⟩ | ⟨m2, h2⟩ <;>
  rcases r3_cases row with h3 | ⟨m3, h3⟩ | ⟨m3, h3⟩ <;>
  simp [h1, h2, h3, List.countP_cons, List.countP_nil]

end SalesAgent
namespace SalesAgent

theorem length_filter_status (l : List EvaluatedRecord) :
    (l.filter (fun r => decide (r.status = Status.CRITICAL))).length +
    (l.filter (fun r => decide (r.status = Status.WARNING))).length +
    (l.filter (fun r => decide (r.status = Status.OK))).length = l.length := by
  induction l with
  | nil => rfl
  | cons r l ih =>
    cases h : r.status <;> simp [List.filter_cons, h] <;> omega

theorem length_filter_flagged (l : List EvaluatedRecord) :
    (l.filter
      (fun r => decide (r.status = Status.CRITICAL ∨ r.status = Status.WARNING))).length =
    (l.filter (fun r => decide (r.status = Status.CRITICAL))).length +
    (l.filter (fun r => decide (r.status = Status.WARNING))).length := by
  induction l with
  | nil => rfl
  | cons r l ih =>
    cases h : r.status <;> simp [List.filter_cons, h] at ih ⊢ <;> omega

/-- C9: in every summary the three status counts add up to the row count,
and flagged_items has exactly critical_count + warning_count entries. -/
theorem claim_C9 (results : List EvaluatedRecord) (now : Now) :
    (aggregate_findings results now).critical_count +
      (aggregate_findings results now).warning_count +
      (aggregate_findings results now).ok_count =
      (aggregate_findings results now).total_rows ∧
    (aggregate_findings results now).flagged_items.length =
      (aggregate_findings results now).critical_count +
      (aggregate_findings results now).warning_count := by
  cases results with
  | nil => exact ⟨rfl, rfl⟩
  | cons r rs =>
    simp only [aggregate_findings, statusCount]
    exact ⟨length_filter_status _, length_filter_flagged _⟩

end SalesAgent
namespace SalesAgent

theorem sorted_take_sort_asc (l : List EvaluatedRecord) (n : Nat) :
    List.Sorted byDeltaAsc ((List.insertionSort byDeltaAsc l).take n) :=
  (List.sorted_insertionSort byDeltaAsc l).sublist (List.take_sublist n _)

theorem sorted_take_sort_desc (l : List EvaluatedRecord) (n : Nat) :
    List.Sorted byDeltaDesc ((List.insertionSort byDeltaDesc l).take n) :=
  (List.sorted_insertionSort byDeltaDesc l).sublist (List.take_sublist n _)

theorem mem_take_sort {l : List EvaluatedRecord} {p : EvaluatedRecord → Bool}
    {rel : EvaluatedRecord → EvaluatedRecord → Prop} [DecidableRel rel] {n : Nat}
    {r : EvaluatedRecord} (h : r ∈ (List.insertionSort rel (l.filter p)).take n) :
    r ∈ l ∧ p r = true := by
  have h1 : r ∈ List.insertionSort rel (l.filter p) := List.mem_of_mem_take h
  have h2 : r ∈ l.filter p := (List.mem_insertionSort rel).mp h1
  exact List.mem_filter.mp h2

/-- C5: the summary's issue lists contain only records of the matching
status, critical_issues and warning_issues are sorted ascending by
delta_vs_target with at most 5 entries, top_performers are sorted
descending with at most 3 entries, and flagged_items are exactly the
CRITICAL and WARNING records. -/
theorem claim_C5 (results : List EvaluatedRecord) (now : Now) (h : results ≠ []) :
    ((aggregate_findings results now).critical_issues.length ≤ 5 ∧
      List.Sorted byDeltaAsc (aggregate_findings results now).critical_issues ∧
      ∀ r ∈ (aggregate_findings results now).critical_issues,
        r.status = Status.CRITICAL) ∧
    ((aggregate_findings results now).warning_issues.length ≤ 5 ∧
      List.Sorted byDeltaAsc (aggregate_findings results now).warning_issues ∧
      ∀ r ∈ (aggregate_findings results now).warning_issues,
        r.status = Status.WARNING) ∧
    ((aggregate_findings results now).top_performers.length ≤ 3 ∧
      List.Sorted byDeltaDesc (aggregate_findings results now).top_performers ∧
      ∀ r ∈ (aggregate_findings results now).top_performers,
        r.status = Status.OK) ∧
    (∀ r, r ∈ (aggregate_findings results now).flagged_items ↔
      r ∈ results ∧ (r.status = Status.CRITICAL ∨ r.status = Status.WARNING)) := by
  cases results with
  | nil => exact absurd rfl h
  | cons first rs =>
    refine ⟨⟨List.length_take_le _ _, sorted_take_sort_asc _ _, fun r hr => ?_⟩,
            ⟨List.length_take_le _ _, sorted_take_sort_asc _ _, fun r hr => ?_⟩,
            ⟨List.length_take_le _ _, sorted_take_sort_desc _ _, fun r hr => ?_⟩,
            fun r => ?_⟩
    · have := (mem_take_sort hr).2
      simpa using this
    · have := (mem_take_sort hr).2
      simpa using this
    · have := (mem_take_sort hr).2
      simpa using this
    · constructor
      · intro hr
        have := List.mem_filter.mp hr
        simpa using this
      · intro hr
        apply List.mem_filter.mpr
        simpa using hr

end SalesAgent
namespace SalesAgent

/-- Sample evaluated record used by the aggregate-level witnesses: a
CRITICAL record with positive target. -/
def recW : EvaluatedRecord :=
  ⟨1, "North", "Widget", 8000, 10000, -20, -2, "Saturday", true, Status.CRITICAL,
    [⟨"R1.3", Severity.CRITICAL, "Missed target by 20.0%"⟩], none⟩

/-- Sample wall clock used by the witnesses. -/
def nowW : Now := ⟨2, "Monday"⟩

theorem claim_C5_witness :
    (aggregate_findings [recW] nowW).critical_issues.length ≤ 5 ∧
    (recW ∈ (aggregate_findings [recW] nowW).flagged_items ↔
      recW ∈ [recW] ∧
      (recW.status = Status.CRITICAL ∨ recW.status = Status.WARNING)) :=
  ⟨(claim_C5 [recW] nowW (by simp)).1.1,
   (claim_C5 [recW] nowW (by simp)).2.2.2 recW⟩

/-- C6: for a non-empty result table, portfolio_achievement equals
total_sales / total_target x 100 when the summed target is positive, and
is 0 when the summed target is 0 (the guarded division, never an error). -/
theorem claim_C6 (results : List EvaluatedRecord) (now : Now) (h : results ≠ []) :
    ((aggregate_findings results now).total_target > 0 →
      (aggregate_findings results now).portfolio_achievement =
        (aggregate_findings results now).total_sales /
          (aggregate_findings results now).total_target * 100) ∧
    ((aggregate_findings results now).total_target = 0 →
      (aggregate_findings results now).portfolio_achievement = 0) := by
  cases results with
  | nil => exact absurd rfl h
  | cons first rs =>
    have ht : (aggregate_findings (first :: rs) now).total_target =
        ((first :: rs).map EvaluatedRecord.target_daily).sum := rfl
    have hs : (aggregate_findings (first :: rs) now).total_sales =
        ((first :: rs).map EvaluatedRecord.total_sales).sum := rfl
    have ha : (aggregate_findings (first :: rs) now).portfolio_achievement =
        if ((first :: rs).map EvaluatedRecord.target_daily).sum > 0 then
          ((first :: rs).map EvaluatedRecord.total_sales).sum /
            ((first :: rs).map EvaluatedRecord.target_daily).sum * 100
        else 0 := rfl
    rw [ht, hs, ha]
    by_cases htgt : ((first :: rs).map EvaluatedRecord.target_daily).sum > 0
    · rw [if_pos htgt]
      exact ⟨fun _ => rfl, fun h0 => absurd h0 (ne_of_gt htgt)⟩
    · rw [if_neg htgt]
      exact ⟨fun hgt => absurd hgt htgt, fun _ => rfl⟩

theorem claim_C6_witness :
    (aggregate_findings [recW] nowW).total_target > 0 ∧
    (aggregate_findings [recW] nowW).portfolio_achievement =
      (aggregate_findings [recW] nowW).total_sales /
        (aggregate_findings [recW] nowW).total_target * 100 :=
  ⟨by decide, (claim_C6 [recW] nowW (by simp)).1 (by decide)⟩

/-- C7: an absent or empty dataset yields the empty result table, and the
aggregator then returns the defined empty summary: zero rows and counts,
overall status OK, all four lists empty, and the wall-clock date and
weekday as fallback metadata. -/
theorem claim_C7 (now : Now) :
    process_daily_data none = [] ∧
    process_daily_data (some []) = [] ∧
    aggregate_findings [] now = empty_summary now ∧
    (empty_summary now).total_rows = 0 ∧
    (empty_summary now).critical_count = 0 ∧
    (empty_summary now).warning_count = 0 ∧
    (empty_summary now).ok_count = 0 ∧
    (empty_summary now).overall_status = Status.OK ∧
    (empty_summary now).critical_issues = [] ∧
    (empty_summary now).warning_issues = [] ∧
    (empty_summary now).top_performers = [] ∧
    (empty_summary now).flagged_items = [] ∧
    (empty_summary now).date = now.date ∧
    (empty_summary now).day_name = now.day_name := by
  exact ⟨rfl, rfl, rfl, rfl, rfl, rfl, rfl, rfl, rfl, rfl, rfl, rfl, rfl, rfl⟩

end SalesAgent
namespace SalesAgent

/-- C4 (amended): the report embeds the alerts section between a fixed
header and footer; the alerts list at most 3 critical and at most 2
warning entries, and each entry's text is a function of the item's
region, product, total_sales, delta_vs_target and delta_vs_yesterday
fields only (in particular not of its violations). -/
theorem claim_C4 (s : PortfolioSummary) :
    generate_ai_insight s =
      reportHeader s ++ String.join (alertLines s) ++ reportFooter s ∧
    alertLines s =
      (s.critical_issues.take 3).map criticalLine ++
      (s.warning_issues.take 2).map warningLine ++
      (if s.critical_issues = [] ∧ s.warning_issues = [] then
        ["- ✅ Tidak ada masalah kritis atau peringatan terdeteksi\n"]
      else []) ∧
    ((s.critical_issues.take 3).map criticalLine).length ≤ 3 ∧
    ((s.warning_issues.take 2).map warningLine).length ≤ 2 ∧
    (∀ i j : EvaluatedRecord, i.region = j.region → i.product = j.product →
      i.total_sales = j.total_sales → i.delta_vs_target = j.delta_vs_target →
      i.delta_vs_yesterday = j.delta_vs_yesterday →
      criticalLine i = criticalLine j ∧ warningLine i = warningLine j) := by
  refine ⟨rfl, rfl, ?_, ?_, ?_⟩
  · rw [List.length_map]
    exact List.length_take_le _ _
  · rw [List.length_map]
    exact List.length_take_le _ _
  · intro i j h1 h2 h3 h4 h5
    exact ⟨by simp [criticalLine, h1, h2, h3, h4, h5],
           by simp [warningLine, h1, h2, h4]⟩

/-- Critical issue with one recorded violation, for the C4 theorems. -/
def issueA : EvaluatedRecord :=
  ⟨1, "North", "Widget", 8000, 10000, -20, -2, "Saturday", false, Status.CRITICAL,
    [⟨"R1.3", Severity.CRITICAL, "Missed target by 20.0%"⟩], none⟩

/-- The same issue with its violations list emptied. -/
def issueB : EvaluatedRecord := { issueA with violations := [] }

/-- Summary whose single critical issue is issueA. -/
def summaryA : PortfolioSummary :=
  { date := 1, day_name := "Saturday", is_weekend := true, total_rows := 1,
    critical_count := 1, warning_count := 0, ok_count := 0,
    total_sales := 8000, total_target := 10000, portfolio_achievement := 80,
    delta_vs_yesterday := -2, overall_status := Status.CRITICAL,
    critical_issues := [issueA], warning_issues := [], top_performers := [],
    flagged_items := [issueA] }

/-- summaryA with the critical issue's violations removed. -/
def summaryB : PortfolioSummary :=
  { summaryA with critical_issues := [issueB], flagged_items := [issueB] }

theorem claim_C4_witness :
    generate_ai_insight summaryA =
      reportHeader summaryA ++ String.join (alertLines summaryA) ++
        reportFooter summaryA ∧
    criticalLine issueA = criticalLine issueB ∧
    warningLine issueA = warningLine issueB :=
  ⟨(claim_C4 summaryA).1,
   ((claim_C4 summaryA).2.2.2.2 issueA issueB rfl rfl rfl rfl rfl).1,
   ((claim_C4 summaryA).2.2.2.2 issueA issueB rfl rfl rfl rfl rfl).2⟩

/-- Counterexample to C4 as stated: two summaries that differ only in the
violations recorded on their single critical issue (one has a violation
message, the other none at all) produce the identical report, so the
per-item text is not drawn from the item's first violation and no
violation-dependent fallback exists. -/
theorem claim_C4_counterexample :
    generate_ai_insight summaryA = generate_ai_insight summaryB ∧
    summaryA.critical_issues.map (fun r => r.violations) ≠
      summaryB.critical_issues.map (fun r => r.violations) := by
  exact ⟨rfl, by decide⟩

end SalesAgent
namespace SalesAgent

theorem foldr_max_mem (l : List Nat) (h : l ≠ []) : l.foldr max 0 ∈ l := by
  induction l with
  | nil => exact absurd rfl h
  | cons a l ih =>
    cases l with
    | nil => simp
    | cons b t =>
      rw [List.foldr_cons]
      rcases max_choice a ((b :: t).foldr max 0) with hm | hm
      · rw [hm]
        exact List.mem_cons_self _ _
      · rw [hm]
        exact List.mem_cons_of_mem _ (ih (by simp))

theorem process_some_ne_nil (rows : List SalesRow) (h : rows ≠ []) :
    process_daily_data (some rows) ≠ [] := by
  simp only [process_daily_data, get_latest_data]
  have hl : rows.length > 0 := List.length_pos.mpr h
  rw [if_pos hl]
  intro hemp
  rw [List.map_eq_nil_iff] at hemp
  have hmem : latestDate rows ∈ rows.map SalesRow.date :=
    foldr_max_mem _ (by simpa using h)
  rcases List.mem_map.mp hmem with ⟨r, hr, hrd⟩
  have : r ∈ rows.filter (fun r => decide (r.date = latestDate rows)) :=
    List.mem_filter.mpr ⟨hr, by simp [hrd]⟩
  rw [hemp] at this
  exact absurd this (List.not_mem_nil r)

theorem aggregate_nonempty_now (results : List EvaluatedRecord)
    (h : results ≠ []) (now1 now2 : Now) :
    aggregate_findings results now1 = aggregate_findings results now2 := by
  cases results with
  | nil => exact absurd rfl h
  | cons a rs => rfl

/-- C8 (amended): on every non-empty loaded snapshot the pipeline output
is a pure function of the snapshot alone: two runs at arbitrary
wall-clock times produce the identical summary and report text.  (On an
absent or empty snapshot the summary carries the wall-clock date and
weekday, so two such runs agree only when those coincide.) -/
theorem claim_C8 (rows : List SalesRow) (h : rows ≠ []) (now1 now2 : Now) :
    run_analysis (some rows) now1 = run_analysis (some rows) now2 := by
  simp only [run_analysis]
  rw [aggregate_nonempty_now _ (process_some_ne_nil rows h) now1 now2]

/-- Sample one-row snapshot for the C8 witness. -/
def c8Row : SalesRow :=
  ⟨7, "South", "Gadget", 12000, 10000, 20, 5, 11000, "Tuesday", false⟩

theorem claim_C8_witness :
    run_analysis (some [c8Row]) ⟨100, "Monday"⟩ =
      run_analysis (some [c8Row]) ⟨200, "Friday"⟩ :=
  claim_C8 [c8Row] (by simp) ⟨100, "Monday"⟩ ⟨200, "Friday"⟩

/-- Counterexample to C8 as stated: on the same loaded (empty) snapshot,
two runs whose wall clocks fall on different days produce different
summaries, because the empty summary records the run-time date and
weekday. -/
theorem claim_C8_counterexample :
    run_analysis (some []) ⟨5, "Saturday"⟩ ≠ run_analysis (some []) ⟨6, "Sunday"⟩ := by
  intro he
  have hd := congrArg (fun r => r.summary.date) he
  simp only [run_analysis] at hd
  exact absurd hd (by decide)

end SalesAgent
